import Mathlib

/-!
Verification of the n8n-Agent-Automations EdTech support-agent core:
a shallow embedding of `llm/classify.py` (keyword classifier) and
`rules/escalation.py` (escalation rule evaluator), with the static
configuration of `config/settings.py`, followed by theorems about the
embedded functions.

Conventions of the embedding:
  * Python strings are Lean `String`s; Python `needle in hay` is `pyIn`;
    `str.lower()` is `pyLower`.
  * Python floats carrying confidences/thresholds are modelled as exact
    rationals `ℚ` (all literals in the source are short decimals, and no
    comparison in the source is decided by a float rounding artefact).
  * A Python `dict` used as a record becomes a structure; `None` becomes
    `Option.none`; code that would raise returns `Except.error`.
  * Python ints (contact counts) are `ℤ`.
-/

/-- Boolean test that `needle` is a prefix of `hay` (character lists). -/
def isPrefOf : List Char → List Char → Bool
  | [], _ => true
  | _ :: _, [] => false
  | a :: as, b :: bs => a == b && isPrefOf as bs

/-- Boolean test that `needle` occurs as a contiguous substring of `hay`. -/
def occursIn (needle : List Char) : List Char → Bool
  | [] => needle.isEmpty
  | c :: hs => isPrefOf needle (c :: hs) || occursIn needle hs

/-- Python's `needle in hay` on strings: contiguous substring containment. -/
def pyIn (needle hay : String) : Bool :=
  occursIn needle.toList hay.toList

/-- Python's `s.lower()`, modelled character by character (the source only
ever lowercases ASCII text). -/
def pyLower (s : String) : String :=
  String.mk (s.toList.map Char.toLower)

/-- Python's `any(word in t for word in kws)`. -/
def anyKw (kws : List String) (t : String) : Bool :=
  kws.any (fun w => pyIn w t)

/-! ## config/settings.py -/

/-- Mirrors `SUPPORT_CATEGORIES` of config/settings.py: each category's
ordered list of declared sub-categories (the inner dict holds only the
`sub_categories` key, so a pair list suffices). -/
def SUPPORT_CATEGORIES : List (String × List String) :=
  [("Technical Issues",
      ["Platform Access", "Video Playback", "Course Materials",
       "Account Login", "Browser Compatibility"]),
   ("Payment & Billing",
      ["Refund Request", "Payment Failed", "Invoice",
       "Subscription", "Course Pricing"]),
   ("Course Content",
      ["Course Completion", "Certificate", "Curriculum",
       "Course Duration", "Content Quality"]),
   ("Account Management",
      ["Profile Update", "Password Reset", "Account Deletion",
       "Email Change", "Two Factor Auth"]),
   ("General Queries",
      ["Inquiry", "Suggestion", "Feedback", "Other"])]

/-- Mirrors `LEGAL_KEYWORDS` of config/settings.py. -/
def LEGAL_KEYWORDS : List String :=
  ["legal", "lawsuit", "attorney", "lawyer",
   "compliance", "court", "dispute", "contract"]

/-- Mirrors `REFUND_KEYWORDS` of config/settings.py. -/
def REFUND_KEYWORDS : List String :=
  ["refund", "money back", "reimbursement", "return",
   "charge back", "refund request", "cancel subscription",
   "get my money back", "refund my payment"]

/-- Mirrors `ESCALATION_THRESHOLDS` of config/settings.py (a dict with
four fixed keys, modelled as a record). -/
structure EscalationThresholds where
  repeated_contact_count : ℤ
  high_confidence_threshold : ℚ
  medium_confidence_threshold : ℚ
  low_confidence_threshold : ℚ

def ESCALATION_THRESHOLDS : EscalationThresholds :=
  { repeated_contact_count := 2
    high_confidence_threshold := 0.90
    medium_confidence_threshold := 0.85
    low_confidence_threshold := 0.75 }

/-- Mirrors `HIGH_URGENCY_KEYWORDS` of config/settings.py. -/
def HIGH_URGENCY_KEYWORDS : List String :=
  ["urgent", "asap", "immediately", "critical", "emergency",
   "cannot access", "broken", "not working", "error", "failed"]

/-- Mirrors `MEDIUM_URGENCY_KEYWORDS` of config/settings.py. -/
def MEDIUM_URGENCY_KEYWORDS : List String :=
  ["important", "soon", "need", "issue", "problem", "help"]

/-- Mirrors `POSITIVE_KEYWORDS` of config/settings.py. -/
def POSITIVE_KEYWORDS : List String :=
  ["great", "excellent", "amazing", "love", "perfect", "wonderful",
   "thank you", "thanks", "appreciate", "satisfied"]

/-- Mirrors `NEGATIVE_KEYWORDS` of config/settings.py. -/
def NEGATIVE_KEYWORDS : List String :=
  ["bad", "terrible", "awful", "hate", "worst", "problem",
   "issue", "broken", "error", "frustrated", "angry"]

/-! ## llm/classify.py — EmailClassifier -/

/-- The classification dict returned by `EmailClassifier.classify`. -/
structure Classification where
  category : String
  sub_category : String
  urgency : String
  sentiment : String
  confidence : ℚ
  escalate_to_human : Bool
deriving DecidableEq, Repr

/-- Mirrors `EmailClassifier._classify_category`: the keyword groups are
hardcoded in the method body and tested in this fixed order. -/
def classify_category (text : String) : String :=
  let text_lower := pyLower text
  if anyKw ["refund", "payment", "billing", "invoice", "price", "cost",
            "charged"] text_lower then
    "Payment & Billing"
  else if anyKw ["cannot access", "login", "error", "broken", "not working",
                 "video", "playback", "platform"] text_lower then
    "Technical Issues"
  else if anyKw ["certificate", "completion", "course", "material", "content",
                 "curriculum"] text_lower then
    "Course Content"
  else if anyKw ["password", "account", "profile", "email", "delete",
                 "two factor", "verification"] text_lower then
    "Account Management"
  else
    "General Queries"

/-- Rows of the nested `mapping` dict in `_classify_sub_category`,
key "Technical Issues". -/
def technical_mapping : List (String × List String) :=
  [("Platform Access", ["cannot access", "access denied", "login"]),
   ("Video Playback", ["video", "playback", "cannot play"]),
   ("Course Materials", ["materials", "content", "download"]),
   ("Account Login", ["login", "password", "sign in"]),
   ("Browser Compatibility", ["browser", "chrome", "firefox", "safari"])]

/-- Rows of the nested `mapping` dict, key "Payment & Billing". -/
def payment_mapping : List (String × List String) :=
  [("Refund Request", ["refund", "return", "money back"]),
   ("Payment Failed", ["payment failed", "charge", "declined"]),
   ("Invoice", ["invoice", "receipt", "bill"]),
   ("Subscription", ["subscription", "renew", "cancel"]),
   ("Course Pricing", ["price", "cost", "expensive"])]

/-- Rows of the nested `mapping` dict, key "Course Content". -/
def course_mapping : List (String × List String) :=
  [("Course Completion", ["completion", "finished", "done"]),
   ("Certificate", ["certificate", "proof", "credential"]),
   ("Curriculum", ["curriculum", "course structure"]),
   ("Course Duration", ["duration", "long", "hours"]),
   ("Content Quality", ["quality", "content", "material"])]

/-- Rows of the nested `mapping` dict, key "Account Management". -/
def account_mapping : List (String × List String) :=
  [("Profile Update", ["profile", "update", "change"]),
   ("Password Reset", ["password", "reset", "forgot"]),
   ("Account Deletion", ["delete", "remove", "cancel account"]),
   ("Email Change", ["email", "change email"]),
   ("Two Factor Auth", ["2fa", "two factor", "authentication"])]

/-- The `mapping` dict of `_classify_sub_category`, in insertion order. -/
def sub_category_mapping : List (String × List (String × List String)) :=
  [("Technical Issues", technical_mapping),
   ("Payment & Billing", payment_mapping),
   ("Course Content", course_mapping),
   ("Account Management", account_mapping)]

/-- Python's `sub_categories[0] if sub_categories else "Unknown"`. -/
def headOrUnknown : List String → String
  | [] => "Unknown"
  | s :: _ => s

/-- Mirrors `EmailClassifier._classify_sub_category`: early return
"Unknown" when the category is not in `SUPPORT_CATEGORIES`; otherwise the
first sub-category of the category's `mapping` row whose keyword list has a
match, falling back to the first declared sub-category. -/
def classify_sub_category (category text : String) : String :=
  let text_lower := pyLower text
  match SUPPORT_CATEGORIES.find? (fun p => p.1 == category) with
  | none => "Unknown"
  | some entry =>
    match sub_category_mapping.find? (fun p => p.1 == category) with
    | none => headOrUnknown entry.2
    | some mp =>
      ((mp.2.find? (fun pr => anyKw pr.2 text_lower)).map Prod.fst).getD
        (headOrUnknown entry.2)

/-- Mirrors `EmailClassifier._classify_urgency`. -/
def classify_urgency (text : String) : String :=
  let text_lower := pyLower text
  if anyKw HIGH_URGENCY_KEYWORDS text_lower then "High"
  else if anyKw MEDIUM_URGENCY_KEYWORDS text_lower then "Medium"
  else "Low"

/-- Mirrors `EmailClassifier._classify_sentiment`: membership counts (each
keyword counted once per presence). -/
def classify_sentiment (text : String) : String :=
  let text_lower := pyLower text
  let positive_count := (POSITIVE_KEYWORDS.filter (fun w => pyIn w text_lower)).length
  let negative_count := (NEGATIVE_KEYWORDS.filter (fun w => pyIn w text_lower)).length
  if positive_count > negative_count then "Positive"
  else if negative_count > positive_count then "Negative"
  else "Neutral"

/-- Mirrors `EmailClassifier._calculate_confidence`. -/
def calculate_confidence (text : String) (category : String) : ℚ :=
  let confidence : ℚ := 0.7
  let confidence := if category ≠ "General Queries" then confidence + 0.15 else confidence
  let confidence :=
    if text.length > 100 then confidence + 0.1
    else if text.length > 50 then confidence + 0.05
    else confidence
  min confidence 1.0

/-- Mirrors `EmailClassifier.classify`. -/
def classify (subject body : String) : Classification :=
  let text := pyLower (subject ++ " " ++ body)
  let category := classify_category text
  let sub_category := classify_sub_category category text
  let urgency := classify_urgency text
  let sentiment := classify_sentiment text
  let confidence := calculate_confidence text category
  let escalate_to_human := urgency == "High" || decide (confidence < 0.5)
  { category := category
    sub_category := sub_category
    urgency := urgency
    sentiment := sentiment
    confidence := confidence
    escalate_to_human := escalate_to_human }

/-! ## rules/escalation.py — EscalationRules

A `classification` argument is `Option Classification`: `none` models the
Python `None` input handled by the `if not classification` guard. Functions
that can raise on their inputs (attribute access on `None`) return
`Except String _`, with the error string naming the Python exception. -/

/-- Mirrors `EscalationRules.check_legal_threat`. -/
def check_legal_threat (body : String) : Bool :=
  anyKw LEGAL_KEYWORDS (pyLower body)

/-- Mirrors `EscalationRules.check_refund_demand`. -/
def check_refund_demand (body : String) : Bool :=
  anyKw REFUND_KEYWORDS (pyLower body)

/-- Mirrors `EscalationRules.check_angry_tone`. -/
def check_angry_tone (sentiment : String) : Bool :=
  sentiment == "Negative"

/-- Mirrors `EscalationRules.check_repeated_contact`: the threshold lookup
`ESCALATION_THRESHOLDS.get("repeated_contact_count", 2)` finds the key, so
it reads the configured value 2. -/
def check_repeated_contact (contact_count : ℤ) : Bool :=
  decide (contact_count ≥ ESCALATION_THRESHOLDS.repeated_contact_count)

/-- Mirrors `EscalationRules.check_high_urgency`. -/
def check_high_urgency (urgency : String) : Bool :=
  urgency == "High"

/-- Mirrors `EscalationRules.check_medium_urgency`. -/
def check_medium_urgency (urgency : String) : Bool :=
  urgency == "Medium"

/-- Two-decimal rendering of a rational, modelling the `f"{x:.2f}"`
format applied to the confidence values in the reason strings. -/
def fmt2 (q : ℚ) : String :=
  let cents : ℤ := Int.floor (q * 100 + 1 / 2)
  let whole := cents / 100
  let frac := (cents % 100).toNat
  toString whole ++ "." ++ (if frac < 10 then "0" else "") ++ toString frac

/-- Mirrors `EscalationRules.evaluate`, the master rule chain. The Python
rule-5 block (`if check_repeated_contact: if high and angry: ... elif
medium and angry: ...`) falls through to rule 6 when no inner branch
matches; it is flattened here into two guarded branches with the same
fall-through behaviour. Rule 6 and the default both produce
`(false, none)` exactly as in the source. -/
def evaluate (classification : Option Classification) (email_body : String)
    (contact_count : ℤ) : Bool × Option String :=
  match classification with
  | none => (true, some "No classification provided")
  | some c =>
    let urgency := c.urgency
    let sentiment := c.sentiment
    let confidence := c.confidence
    -- RULE 1: legal threat detected - always escalate
    if check_legal_threat email_body then
      (true, some "Legal threat detected")
    -- RULE 2: explicit refund demand - always escalate
    else if check_refund_demand email_body then
      (true, some "Refund demand detected")
    -- RULE 3: high urgency + negative sentiment, only if high confidence
    else if check_high_urgency urgency && check_angry_tone sentiment then
      if confidence ≥ 0.90 then
        (true, some ("High urgency + Negative sentiment (confidence: "
                      ++ fmt2 confidence ++ ")"))
      else
        (false, none)
    -- RULE 4: medium urgency + negative sentiment = auto-draft
    else if check_medium_urgency urgency && check_angry_tone sentiment then
      (false, none)
    -- RULE 5: repeated contact (2+) with high urgency + negative
    else if check_repeated_contact contact_count
        && (check_high_urgency urgency && check_angry_tone sentiment) then
      if confidence ≥ 0.85 then
        (true, some ("Repeated contact (" ++ toString contact_count
                      ++ ") + High urgency + Negative (confidence: "
                      ++ fmt2 confidence ++ ")"))
      else
        (false, none)
    else if check_repeated_contact contact_count
        && (check_medium_urgency urgency && check_angry_tone sentiment) then
      (false, none)
    -- RULE 6: low confidence in classification
    else if confidence < 0.75 then
      (false, none)
    -- DEFAULT: no escalation needed
    else
      (false, none)

/-- Mirrors `EscalationRules.get_escalation_priority`. After the
`if not escalate: return "None"` guard, the source reads
`classification.get("urgency", "Low")`, which raises `AttributeError` when
`classification` is `None`; that raise is the `Except.error` branch. -/
def get_escalation_priority (classification : Option Classification)
    (email_body : String) (contact_count : ℤ) : Except String String :=
  let er := evaluate classification email_body contact_count
  if er.1 = false then
    Except.ok "None"
  else
    match classification with
    | none => Except.error "AttributeError: NoneType object has no attribute get"
    | some c =>
      let urgency := c.urgency
      let sentiment := c.sentiment
      -- Critical: legal or refund demand
      if check_legal_threat email_body then Except.ok "Critical"
      else if check_refund_demand email_body then Except.ok "Critical"
      -- High: high urgency + negative (with high confidence)
      else if urgency == "High" && sentiment == "Negative" then Except.ok "High"
      -- Medium: repeated contact with issues
      else if contact_count ≥ 2 then Except.ok "Medium"
      -- Low: other escalations
      else Except.ok "Low"

/-- The dict returned by `EscalationRules.format_escalation_summary`
(`details` flattened into prefixed fields). -/
structure EscalationSummary where
  should_escalate : Bool
  reason : Option String
  priority : String
  details_urgency : String
  details_sentiment : String
  details_confidence : ℚ
  details_contact_count : ℤ
  details_has_legal_threat : Bool
  details_has_refund_demand : Bool
deriving DecidableEq, Repr

/-- Mirrors `EscalationRules.format_escalation_summary`: it calls
`evaluate` and `get_escalation_priority`, then builds the summary dict;
the `classification.get(...)` reads in the `details` dict raise
`AttributeError` when `classification` is `None` (although the
`get_escalation_priority` call has already raised in that case). -/
def format_escalation_summary (classification : Option Classification)
    (email_body : String) (contact_count : ℤ) : Except String EscalationSummary :=
  let er := evaluate classification email_body contact_count
  match get_escalation_priority classification email_body contact_count with
  | Except.error e => Except.error e
  | Except.ok priority =>
    match classification with
    | none => Except.error "AttributeError: NoneType object has no attribute get"
    | some c =>
      Except.ok
        { should_escalate := er.1
          reason := er.2
          priority := priority
          details_urgency := c.urgency
          details_sentiment := c.sentiment
          details_confidence := c.confidence
          details_contact_count := contact_count
          details_has_legal_threat := check_legal_threat email_body
          details_has_refund_demand := check_refund_demand email_body }

/-! ## Helper lemmas on the escalation evaluator -/

/-- When `evaluate` does not escalate, the priority is the tier "None". -/
theorem priority_of_not_escalate (cl : Option Classification) (body : String)
    (cc : ℤ) (h : (evaluate cl body cc).1 = false) :
    get_escalation_priority cl body cc = Except.ok "None" := by
  simp [get_escalation_priority, h]

/-- Rule 1 of `evaluate`: a legal threat short-circuits everything. -/
theorem evaluate_legal (c : Classification) (body : String) (cc : ℤ)
    (h : check_legal_threat body = true) :
    evaluate (some c) body cc = (true, some "Legal threat detected") := by
  simp [evaluate, h]

/-- Rule 3 of `evaluate`: with no legal/refund keywords, High urgency and
Negative sentiment, the outcome is decided by the 0.90 confidence test. -/
theorem evaluate_high_neg (c : Classification) (body : String) (cc : ℤ)
    (hl : check_legal_threat body = false) (hr : check_refund_demand body = false)
    (hu : c.urgency = "High") (hs : c.sentiment = "Negative") :
    evaluate (some c) body cc =
      if c.confidence ≥ 0.90 then
        (true, some ("High urgency + Negative sentiment (confidence: "
                      ++ fmt2 c.confidence ++ ")"))
      else (false, none) := by
  simp [evaluate, hl, hr, hu, hs, check_high_urgency, check_angry_tone]

/-- Rule 4 of `evaluate`: with no legal/refund keywords, Medium urgency and
Negative sentiment always auto-draft. -/
theorem evaluate_medium_neg (c : Classification) (body : String) (cc : ℤ)
    (hl : check_legal_threat body = false) (hr : check_refund_demand body = false)
    (hu : c.urgency = "Medium") (hs : c.sentiment = "Negative") :
    evaluate (some c) body cc = (false, none) := by
  simp [evaluate, hl, hr, hu, hs, check_high_urgency, check_angry_tone,
        check_medium_urgency]

/-! ## Theorems for the claims -/

/-- C1, counterexample: for the classification {urgency High, sentiment
Negative, confidence 0.87} with contact_count 2 and an empty body (hence no
legal or refund keywords), `evaluate` does NOT escalate — rule 3's
benefit-of-the-doubt branch fires before the contact-count rule — and the
priority is "None", not "High" as the claim states. -/
theorem C1_counterexample :
    evaluate (some { category := "General Queries", sub_category := "Inquiry",
                     urgency := "High", sentiment := "Negative",
                     confidence := 87/100, escalate_to_human := true }) "" 2
      = (false, none)
    ∧ get_escalation_priority
        (some { category := "General Queries", sub_category := "Inquiry",
                urgency := "High", sentiment := "Negative",
                confidence := 87/100, escalate_to_human := true }) "" 2
      = Except.ok "None" := by
  have he := evaluate_high_neg
    { category := "General Queries", sub_category := "Inquiry",
      urgency := "High", sentiment := "Negative",
      confidence := 87/100, escalate_to_human := true } "" 2 rfl rfl rfl rfl
  rw [if_neg (by norm_num)] at he
  exact ⟨he, priority_of_not_escalate _ _ _ (by rw [he])⟩

/-- C1, amended: for every classification with urgency "High", sentiment
"Negative" and confidence 0.87, contact_count 2 and a body with no
legal-threat or refund-demand keywords, `evaluate` returns
should_escalate = False with no reason (rule 3's benefit-of-the-doubt
branch, 0.87 < 0.90, fires before the contact-count rule is reached), and
`get_escalation_priority` returns "None". -/
theorem C1_amended (c : Classification) (body : String)
    (hu : c.urgency = "High") (hs : c.sentiment = "Negative")
    (hc : c.confidence = 87/100)
    (hl : check_legal_threat body = false) (hr : check_refund_demand body = false) :
    evaluate (some c) body 2 = (false, none)
    ∧ get_escalation_priority (some c) body 2 = Except.ok "None" := by
  have he : evaluate (some c) body 2 = (false, none) := by
    rw [evaluate_high_neg _ _ _ hl hr hu hs, if_neg]
    rw [hc]; norm_num
  exact ⟨he, priority_of_not_escalate _ _ _ (by rw [he])⟩

/-- C1, witness for the amended claim at a concrete input. -/
theorem C1_witness :
    evaluate (some { category := "General Queries", sub_category := "Inquiry",
                     urgency := "High", sentiment := "Negative",
                     confidence := 87/100, escalate_to_human := true }) "hello" 2
      = (false, none)
    ∧ get_escalation_priority
        (some { category := "General Queries", sub_category := "Inquiry",
                urgency := "High", sentiment := "Negative",
                confidence := 87/100, escalate_to_human := true }) "hello" 2
      = Except.ok "None" :=
  C1_amended _ "hello" rfl rfl rfl rfl rfl

/-- C2: on a null classification, `evaluate` itself returns the forced
escalation (True, "No classification provided") — but
`get_escalation_priority` and `format_escalation_summary` then read
`classification.get("urgency", "Low")` on `None` and raise
`AttributeError` instead of returning normally, contradicting the claim. -/
theorem C2_code_bug :
    evaluate none "" 1 = (true, some "No classification provided")
    ∧ get_escalation_priority none "" 1
        = Except.error "AttributeError: NoneType object has no attribute get"
    ∧ format_escalation_summary none "" 1
        = Except.error "AttributeError: NoneType object has no attribute get" :=
  ⟨rfl, rfl, rfl⟩

/-- C3: any body containing a legal-threat keyword makes `evaluate` return
(True, "Legal threat detected") and makes the priority "Critical",
whatever the classification's fields and the contact count are. -/
theorem C3_legal_unconditional (c : Classification) (body : String) (cc : ℤ)
    (h : check_legal_threat body = true) :
    evaluate (some c) body cc = (true, some "Legal threat detected")
    ∧ get_escalation_priority (some c) body cc = Except.ok "Critical" := by
  have he := evaluate_legal c body cc h
  refine ⟨he, ?_⟩
  simp [get_escalation_priority, he, h]

/-- C3, witness: the body "contacting my attorney" with a Low-urgency
Positive classification and contact count 1. -/
theorem C3_witness :
    evaluate (some { category := "General Queries", sub_category := "Inquiry",
                     urgency := "Low", sentiment := "Positive",
                     confidence := 7/10, escalate_to_human := false })
        "contacting my attorney" 1
      = (true, some "Legal threat detected")
    ∧ get_escalation_priority
        (some { category := "General Queries", sub_category := "Inquiry",
                urgency := "Low", sentiment := "Positive",
                confidence := 7/10, escalate_to_human := false })
        "contacting my attorney" 1
      = Except.ok "Critical" :=
  C3_legal_unconditional _ _ 1 rfl

/-- C6: with urgency "High", sentiment "Negative", confidence below 0.90,
contact count 1 and a body free of legal/refund keywords, `evaluate` gives
the benefit of the doubt: should_escalate = False with no reason. -/
theorem C6_benefit_of_doubt (c : Classification) (body : String)
    (hu : c.urgency = "High") (hs : c.sentiment = "Negative")
    (hc : c.confidence < 0.90)
    (hl : check_legal_threat body = false) (hr : check_refund_demand body = false) :
    evaluate (some c) body 1 = (false, none) := by
  rw [evaluate_high_neg _ _ _ hl hr hu hs, if_neg]
  exact not_le.mpr hc

/-- C6, witness at confidence 0.80 and an empty body. -/
theorem C6_witness :
    evaluate (some { category := "Technical Issues", sub_category := "Platform Access",
                     urgency := "High", sentiment := "Negative",
                     confidence := 8/10, escalate_to_human := true }) "" 1
      = (false, none) :=
  C6_benefit_of_doubt _ "" rfl rfl (by norm_num) rfl rfl

/-- C7: with urgency "Medium" and sentiment "Negative", any confidence and
any contact count, and a body free of legal/refund keywords, `evaluate`
returns should_escalate = False (rule 4 fires before the confidence
rules). -/
theorem C7_medium_override (c : Classification) (body : String) (cc : ℤ)
    (hu : c.urgency = "Medium") (hs : c.sentiment = "Negative")
    (hl : check_legal_threat body = false) (hr : check_refund_demand body = false) :
    evaluate (some c) body cc = (false, none) :=
  evaluate_medium_neg c body cc hl hr hu hs

/-- C7, witness at confidence 0.99 and contact count 5. -/
theorem C7_witness :
    evaluate (some { category := "Course Content", sub_category := "Certificate",
                     urgency := "Medium", sentiment := "Negative",
                     confidence := 99/100, escalate_to_human := false }) "" 5
      = (false, none) :=
  C7_medium_override _ "" 5 rfl rfl rfl rfl

/-- When `evaluate` escalates on a non-null classification, the priority is
re-derived from the legal/refund flags, the urgency/sentiment pair and the
contact count, in that order. -/
theorem priority_of_escalate (c : Classification) (body : String) (cc : ℤ)
    (h : (evaluate (some c) body cc).1 = true) :
    get_escalation_priority (some c) body cc = Except.ok
      (if check_legal_threat body then "Critical"
       else if check_refund_demand body then "Critical"
       else if c.urgency == "High" && c.sentiment == "Negative" then "High"
       else if cc ≥ 2 then "Medium"
       else "Low") := by
  simp only [get_escalation_priority, h]
  split_ifs <;> simp_all

/-- The summary record carries the evaluation outcome and the priority. -/
theorem format_of_priority (c : Classification) (body : String) (cc : ℤ)
    (p : String) (h : get_escalation_priority (some c) body cc = Except.ok p) :
    format_escalation_summary (some c) body cc = Except.ok
      { should_escalate := (evaluate (some c) body cc).1
        reason := (evaluate (some c) body cc).2
        priority := p
        details_urgency := c.urgency
        details_sentiment := c.sentiment
        details_confidence := c.confidence
        details_contact_count := cc
        details_has_legal_threat := check_legal_threat body
        details_has_refund_demand := check_refund_demand body } := by
  simp [format_escalation_summary, h]

/-- C4: on every non-null classification, body and contact count, the
priority returned by `get_escalation_priority` is "None" exactly when
`evaluate` does not escalate; when it escalates the priority is one of
Critical, High, Medium, Low; `format_escalation_summary` carries the same
priority and escalate flag. -/
theorem C4_priority_none_iff_no_escalation (c : Classification) (body : String)
    (cc : ℤ) :
    ∃ p : String,
      get_escalation_priority (some c) body cc = Except.ok p
      ∧ ((p = "None") ↔ (evaluate (some c) body cc).1 = false)
      ∧ (p = "None" ∨ p = "Critical" ∨ p = "High" ∨ p = "Medium" ∨ p = "Low")
      ∧ ∃ s : EscalationSummary,
          format_escalation_summary (some c) body cc = Except.ok s
          ∧ s.priority = p ∧ s.should_escalate = (evaluate (some c) body cc).1 := by
  by_cases h : (evaluate (some c) body cc).1 = false
  · refine ⟨"None", priority_of_not_escalate _ _ _ h, by simp [h], Or.inl rfl,
      ⟨_, format_of_priority c body cc "None" (priority_of_not_escalate _ _ _ h),
        rfl, rfl⟩⟩
  · have ht : (evaluate (some c) body cc).1 = true := by
      revert h; cases (evaluate (some c) body cc).1 <;> simp
    have hp := priority_of_escalate c body cc ht
    refine ⟨_, hp, ?_, ?_, ⟨_, format_of_priority c body cc _ hp, rfl, rfl⟩⟩
    · rw [ht]
      constructor
      · intro hnone
        exfalso
        revert hnone
        split_ifs <;> simp
      · intro hf
        exact absurd hf (by simp)
    · split_ifs <;> simp

/-- C5: the category step tests the keyword groups over the lower-cased
"subject body" concatenation in the fixed order Payment & Billing,
Technical Issues, Course Content, Account Management, first matching group
winning, with default "General Queries"; in particular a text containing
both "refund" and "login" is classified "Payment & Billing". -/
theorem C5_category_priority_order :
    (∀ text : String,
      (anyKw ["refund", "payment", "billing", "invoice", "price", "cost",
              "charged"] (pyLower text) = true →
        classify_category text = "Payment & Billing")
      ∧ (anyKw ["refund", "payment", "billing", "invoice", "price", "cost",
                "charged"] (pyLower text) = false →
         anyKw ["cannot access", "login", "error", "broken", "not working",
                "video", "playback", "platform"] (pyLower text) = true →
        classify_category text = "Technical Issues")
      ∧ (anyKw ["refund", "payment", "billing", "invoice", "price", "cost",
                "charged"] (pyLower text) = false →
         anyKw ["cannot access", "login", "error", "broken", "not working",
                "video", "playback", "platform"] (pyLower text) = false →
         anyKw ["certificate", "completion", "course", "material", "content",
                "curriculum"] (pyLower text) = true →
        classify_category text = "Course Content")
      ∧ (anyKw ["refund", "payment", "billing", "invoice", "price", "cost",
                "charged"] (pyLower text) = false →
         anyKw ["cannot access", "login", "error", "broken", "not working",
                "video", "playback", "platform"] (pyLower text) = false →
         anyKw ["certificate", "completion", "course", "material", "content",
                "curriculum"] (pyLower text) = false →
         anyKw ["password", "account", "profile", "email", "delete",
                "two factor", "verification"] (pyLower text) = true →
        classify_category text = "Account Management")
      ∧ (anyKw ["refund", "payment", "billing", "invoice", "price", "cost",
                "charged"] (pyLower text) = false →
         anyKw ["cannot access", "login", "error", "broken", "not working",
                "video", "playback", "platform"] (pyLower text) = false →
         anyKw ["certificate", "completion", "course", "material", "content",
                "curriculum"] (pyLower text) = false →
         anyKw ["password", "account", "profile", "email", "delete",
                "two factor", "verification"] (pyLower text) = false →
        classify_category text = "General Queries"))
    ∧ (∀ subject body : String,
        (classify subject body).category
          = classify_category (pyLower (subject ++ " " ++ body)))
    ∧ (classify "Refund request" "I cannot login").category = "Payment & Billing" := by
  refine ⟨fun text => ⟨?_, ?_, ?_, ?_, ?_⟩, fun subject body => rfl, rfl⟩
  · intro h1
    simp [classify_category, h1]
  · intro h1 h2
    simp [classify_category, h1, h2]
  · intro h1 h2 h3
    simp [classify_category, h1, h2, h3]
  · intro h1 h2 h3 h4
    simp [classify_category, h1, h2, h3, h4]
  · intro h1 h2 h3 h4
    simp [classify_category, h1, h2, h3, h4]

/-- The confidence computation as a single closed formula: base 0.70, a
0.15 specificity bonus, one mutually exclusive length bonus, clamped by
`min` at 1. -/
theorem calc_conf_formula (text category : String) :
    calculate_confidence text category =
      min (0.70 + (if category ≠ "General Queries" then (0.15 : ℚ) else 0)
            + (if text.length > 100 then (0.10 : ℚ)
               else if text.length > 50 then (0.05 : ℚ) else 0)) 1 := by
  simp only [calculate_confidence]
  split_ifs <;> norm_num

/-- The confidence always lies between 0.70 and 0.95. -/
theorem calculate_confidence_bounds (text category : String) :
    (0.70 : ℚ) ≤ calculate_confidence text category
    ∧ calculate_confidence text category ≤ (0.95 : ℚ) := by
  simp only [calculate_confidence]
  split_ifs <;> norm_num [min_def]

/-- C8: the confidence returned by `classify` is 0.70, plus 0.15 when the
category is specific, plus exactly one length bonus on the lower-cased
"subject body" concatenation, clamped to at most 1; so a non-General
classification has confidence at least 0.85, and at least 0.95 when the
text is longer than 100 characters. -/
theorem C8_confidence_formula (subject body : String) :
    (classify subject body).confidence =
      min (0.70
            + (if (classify subject body).category ≠ "General Queries"
               then (0.15 : ℚ) else 0)
            + (if (pyLower (subject ++ " " ++ body)).length > 100 then (0.10 : ℚ)
               else if (pyLower (subject ++ " " ++ body)).length > 50
               then (0.05 : ℚ) else 0)) 1
    ∧ ((classify subject body).category ≠ "General Queries" →
        (0.85 : ℚ) ≤ (classify subject body).confidence)
    ∧ ((classify subject body).category ≠ "General Queries" →
        (pyLower (subject ++ " " ++ body)).length > 100 →
        (0.95 : ℚ) ≤ (classify subject body).confidence) := by
  have h1 : (classify subject body).confidence
      = calculate_confidence (pyLower (subject ++ " " ++ body))
          (classify_category (pyLower (subject ++ " " ++ body))) := rfl
  have h2 : (classify subject body).category
      = classify_category (pyLower (subject ++ " " ++ body)) := rfl
  rw [h1, h2, calc_conf_formula]
  refine ⟨rfl, ?_, ?_⟩
  · intro h
    rw [if_pos h]
    split_ifs <;> norm_num [min_def]
  · intro h hlen
    rw [if_pos h, if_pos hlen]
    norm_num [min_def]

set_option maxRecDepth 4000 in
/-- C8, witness: the subject "Can not pay my invoice" with a long body is a
non-General classification over 100 characters. -/
theorem C8_witness :
    ((classify "Can not pay my invoice"
        "I tried twice and my card was charged but the order still shows unpaid, please sort this out quickly").category
      ≠ "General Queries")
    ∧ ((pyLower ("Can not pay my invoice" ++ " "
        ++ "I tried twice and my card was charged but the order still shows unpaid, please sort this out quickly")).length > 100)
    ∧ (0.95 : ℚ) ≤ (classify "Can not pay my invoice"
        "I tried twice and my card was charged but the order still shows unpaid, please sort this out quickly").confidence :=
  ⟨by decide, by decide,
    (C8_confidence_formula "Can not pay my invoice"
        "I tried twice and my card was charged but the order still shows unpaid, please sort this out quickly").2.2
      (by decide) (by decide)⟩

/-- C9: on every output of `classify` the confidence lies in
[0.70, 0.95] — so the clamp at 1.0 never binds and 1.0 is never reached —
and the escalate hint equals the urgency test alone, since the
"confidence below 0.5" disjunct can never fire. -/
theorem C9_confidence_band (subject body : String) :
    (0.70 : ℚ) ≤ (classify subject body).confidence
    ∧ (classify subject body).confidence ≤ (0.95 : ℚ)
    ∧ (classify subject body).confidence < 1
    ∧ (classify subject body).escalate_to_human
        = ((classify subject body).urgency == "High") := by
  have hb : (0.70 : ℚ) ≤ (classify subject body).confidence
      ∧ (classify subject body).confidence ≤ (0.95 : ℚ) :=
    calculate_confidence_bounds (pyLower (subject ++ " " ++ body))
      (classify_category (pyLower (subject ++ " " ++ body)))
  have hd : decide ((classify subject body).confidence < (0.5 : ℚ)) = false :=
    decide_eq_false (not_lt.mpr (le_trans (by norm_num) hb.1))
  have h3 : (classify subject body).escalate_to_human
      = ((classify subject body).urgency == "High"
          || decide ((classify subject body).confidence < (0.5 : ℚ))) := rfl
  exact ⟨hb.1, hb.2, lt_of_le_of_lt hb.2 (by norm_num),
    by rw [h3, hd, Bool.or_false]⟩

/-- The first mapping row with a keyword match yields one of the row keys,
and the fallback default is used otherwise. -/
theorem getD_keys_mem (pairs : List (String × List String)) (t : String)
    (d : String) (subs : List String) (hd : d ∈ subs)
    (hk : ∀ pr ∈ pairs, pr.1 ∈ subs) :
    ((pairs.find? (fun pr => anyKw pr.2 t)).map Prod.fst).getD d ∈ subs := by
  rcases h : pairs.find? (fun pr => anyKw pr.2 t) with _ | pr
  · rw [h]
    simpa using hd
  · have hm := List.mem_of_find?_eq_some h
    rw [h]
    simpa using hk pr hm

/-- Sub-categories produced for "Technical Issues" are the declared ones. -/
theorem sub_mem_technical (t : String) :
    classify_sub_category "Technical Issues" t ∈
      ["Platform Access", "Video Playback", "Course Materials",
       "Account Login", "Browser Compatibility"] := by
  have he : classify_sub_category "Technical Issues" t
      = ((technical_mapping.find? (fun pr => anyKw pr.2 (pyLower t))).map
          Prod.fst).getD "Platform Access" := rfl
  rw [he]
  exact getD_keys_mem _ _ _ _ (by decide) (by decide)

/-- Sub-categories produced for "Payment & Billing" are the declared ones. -/
theorem sub_mem_payment (t : String) :
    classify_sub_category "Payment & Billing" t ∈
      ["Refund Request", "Payment Failed", "Invoice",
       "Subscription", "Course Pricing"] := by
  have he : classify_sub_category "Payment & Billing" t
      = ((payment_mapping.find? (fun pr => anyKw pr.2 (pyLower t))).map
          Prod.fst).getD "Refund Request" := rfl
  rw [he]
  exact getD_keys_mem _ _ _ _ (by decide) (by decide)

/-- Sub-categories produced for "Course Content" are the declared ones. -/
theorem sub_mem_course (t : String) :
    classify_sub_category "Course Content" t ∈
      ["Course Completion", "Certificate", "Curriculum",
       "Course Duration", "Content Quality"] := by
  have he : classify_sub_category "Course Content" t
      = ((course_mapping.find? (fun pr => anyKw pr.2 (pyLower t))).map
          Prod.fst).getD "Course Completion" := rfl
  rw [he]
  exact getD_keys_mem _ _ _ _ (by decide) (by decide)

/-- Sub-categories produced for "Account Management" are the declared ones. -/
theorem sub_mem_account (t : String) :
    classify_sub_category "Account Management" t ∈
      ["Profile Update", "Password Reset", "Account Deletion",
       "Email Change", "Two Factor Auth"] := by
  have he : classify_sub_category "Account Management" t
      = ((account_mapping.find? (fun pr => anyKw pr.2 (pyLower t))).map
          Prod.fst).getD "Profile Update" := rfl
  rw [he]
  exact getD_keys_mem _ _ _ _ (by decide) (by decide)

/-- The "General Queries" category has no mapping row, so the sub-category
is always the first declared one, "Inquiry". -/
theorem sub_general (t : String) :
    classify_sub_category "General Queries" t = "Inquiry" := rfl

/-- The category step can only produce the five configured categories. -/
theorem classify_category_cases (text : String) :
    classify_category text = "Payment & Billing"
    ∨ classify_category text = "Technical Issues"
    ∨ classify_category text = "Course Content"
    ∨ classify_category text = "Account Management"
    ∨ classify_category text = "General Queries" := by
  simp only [classify_category]
  split_ifs <;> simp

/-- A member of a list whose members are all nonempty and distinct from
"Unknown" is itself nonempty and distinct from "Unknown". -/
theorem ne_empty_unknown_of_mem (s : String) (subs : List String)
    (h : s ∈ subs) (hall : ∀ x ∈ subs, ¬(x = "" ∨ x = "Unknown")) :
    s ≠ "" ∧ s ≠ "Unknown" := by
  have hx := hall s h
  constructor <;> intro he <;> exact hx (by simp [he])

/-- C10: the sub-category returned by `classify` is always drawn from the
declared sub-category list of the returned category, is never empty and
never "Unknown" (for "General Queries" it is always "Inquiry", the first
declared entry). -/
theorem C10_sub_category_declared (subject body : String) :
    ∃ subs : List String,
      SUPPORT_CATEGORIES.find? (fun p => p.1 == (classify subject body).category)
        = some ((classify subject body).category, subs)
      ∧ (classify subject body).sub_category ∈ subs
      ∧ (classify subject body).sub_category ≠ ""
      ∧ (classify subject body).sub_category ≠ "Unknown"
      ∧ ((classify subject body).category = "General Queries" →
          (classify subject body).sub_category = "Inquiry") := by
  have hcat : (classify subject body).category
      = classify_category (pyLower (subject ++ " " ++ body)) := rfl
  have hsub : (classify subject body).sub_category
      = classify_sub_category (classify_category (pyLower (subject ++ " " ++ body)))
          (pyLower (subject ++ " " ++ body)) := rfl
  rcases classify_category_cases (pyLower (subject ++ " " ++ body)) with h | h | h | h | h
  · refine ⟨["Refund Request", "Payment Failed", "Invoice",
             "Subscription", "Course Pricing"], ?_, ?_, ?_, ?_, ?_⟩ <;>
      simp only [hcat, hsub, h]
    · rfl
    · exact sub_mem_payment _
    · exact (ne_empty_unknown_of_mem _ _ (sub_mem_payment _) (by decide)).1
    · exact (ne_empty_unknown_of_mem _ _ (sub_mem_payment _) (by decide)).2
    · intro hq
      exact absurd hq (by decide)
  · refine ⟨["Platform Access", "Video Playback", "Course Materials",
             "Account Login", "Browser Compatibility"], ?_, ?_, ?_, ?_, ?_⟩ <;>
      simp only [hcat, hsub, h]
    · rfl
    · exact sub_mem_technical _
    · exact (ne_empty_unknown_of_mem _ _ (sub_mem_technical _) (by decide)).1
    · exact (ne_empty_unknown_of_mem _ _ (sub_mem_technical _) (by decide)).2
    · intro hq
      exact absurd hq (by decide)
  · refine ⟨["Course Completion", "Certificate", "Curriculum",
             "Course Duration", "Content Quality"], ?_, ?_, ?_, ?_, ?_⟩ <;>
      simp only [hcat, hsub, h]
    · rfl
    · exact sub_mem_course _
    · exact (ne_empty_unknown_of_mem _ _ (sub_mem_course _) (by decide)).1
    · exact (ne_empty_unknown_of_mem _ _ (sub_mem_course _) (by decide)).2
    · intro hq
      exact absurd hq (by decide)
  · refine ⟨["Profile Update", "Password Reset", "Account Deletion",
             "Email Change", "Two Factor Auth"], ?_, ?_, ?_, ?_, ?_⟩ <;>
      simp only [hcat, hsub, h]
    · rfl
    · exact sub_mem_account _
    · exact (ne_empty_unknown_of_mem _ _ (sub_mem_account _) (by decide)).1
    · exact (ne_empty_unknown_of_mem _ _ (sub_mem_account _) (by decide)).2
    · intro hq
      exact absurd hq (by decide)
  · refine ⟨["Inquiry", "Suggestion", "Feedback", "Other"], ?_, ?_, ?_, ?_, ?_⟩ <;>
      simp only [hcat, hsub, h]
    · rfl
    · rw [sub_general]
      decide
    · rw [sub_general]
      decide
    · rw [sub_general]
      decide
    · intro _
      exact sub_general _
